import Mathlib

/-!
Shallow embedding of the cart / order state logic of the nextjs-shop-demo
repository (CartSlice reducers and selectors, the total of the TotalAmount
component, the PaymentPage order assembly, and the CalendarForm interval
filter), together with proofs about the specification claims.

Numbers (ids, quantities, unit counts, prices, epoch milliseconds) are
modelled as `Int`; JavaScript truthiness on numbers (`x || y`) and nullish
coalescing (`x ?? y`) are made explicit by helper functions.
-/

namespace ShopDemo

/-- Embedding of the JavaScript expression `a || b` on numbers: `a` when it
is truthy (nonzero), else `b`. -/
def jsOrInt (a b : Int) : Int :=
  if a = 0 then b else a

/-- Embedding of the JavaScript expression `a || b` where `a` is a possibly
absent number (absent and `0` are both falsy). -/
def jsOrD (a : Option Int) (b : Int) : Int :=
  match a with
  | some v => if v = 0 then b else v
  | none => b

/-- Attribute values of a product entity, as read by the cart code:
`attributeValues.sale.value`, `attributeValues.price.value` and
`attributeValues.units_product.value`.  Absent attributes are `none`. -/
structure AttributeValues where
  sale : Option Int
  price : Option Int
  unitsProduct : Option Int
deriving DecidableEq, Repr

/-- Fields of `IProductsEntity` that the cart code reads (product id,
status identifier, attribute values and the base price field). -/
structure ProductEntity where
  id : Int
  statusIdentifier : String
  attributeValues : AttributeValues
  price : Option Int
deriving DecidableEq, Repr

/-- One element of `productsData` (`IProducts`): a cart line. -/
structure CartLine where
  id : Int
  quantity : Int
  selected : Bool
deriving DecidableEq, Repr

/-- The `deliveryData` record of the cart slice.  `Date` values inside the
interval are modelled as epoch milliseconds. -/
structure DeliveryData where
  date : Int
  time : String
  address : String
  interval : Option (List Int)
deriving DecidableEq, Repr

/-- The cart slice state (`InitialStateType`).  The `delivery` field is an
`IProductsEntity` that may be entirely absent (`undefined`), which the
components test with `!deliveryData` and `deliveryData?.id`; the empty
object `{}` used as the initial value is modelled as an entity with id 0
(an absent JavaScript `id` is falsy exactly like 0 in every test the code
performs on it). -/
structure CartState where
  products : List ProductEntity
  productsData : List CartLine
  delivery : Option ProductEntity
  deliveryData : DeliveryData
  transitionId : Int
  total : Int
  version : Int
deriving DecidableEq, Repr

/-- The empty product entity `{} as IProductsEntity`. -/
def emptyEntity : ProductEntity :=
  { id := 0, statusIdentifier := "", attributeValues := ⟨none, none, none⟩, price := none }

/-- The initial cart state; `now` is the value of `new Date().getTime()`
at store creation. -/
def initialCartState (now : Int) : CartState :=
  { products := []
    productsData := []
    delivery := some emptyEntity
    deliveryData := { date := now, time := "", address := "", interval := some [] }
    transitionId := 0
    total := 0
    version := 0 }

/-- Reducer `addProductToCart`: insert the product with quantity
`max 1 quantity` when absent, otherwise add `quantity` to the stored
quantity, floored at 1. -/
def addProductToCart (s : CartState) (id : Int) (selected : Bool) (quantity : Int) :
    CartState :=
  match s.productsData.findIdx? (fun product => product.id == id) with
  | none =>
      { s with productsData :=
          s.productsData ++ [{ id := id, quantity := max 1 quantity, selected := selected }] }
  | some index =>
      let old := s.productsData[index]?
      let newLine : CartLine :=
        { id := jsOrInt ((old.map (fun l => l.id)).getD 0) id
          quantity := max 1 (jsOrInt ((old.map (fun l => l.quantity)).getD 0) 0 + quantity)
          selected := (old.map (fun l => l.selected)).getD true }
      { s with productsData := s.productsData.set index newLine }

/-- Reducer `addProductsToCart`: replace the product snapshot list. -/
def addProductsToCart (s : CartState) (payload : List ProductEntity) : CartState :=
  { s with products := payload }

/-- Reducer `increaseProductQty`: when absent push a line with quantity 1;
otherwise add `quantity` and clamp to `units` from above
(`Math.min(qty, units)`).  The stored selected flag is the expression
`selected || true` of the source, which is always `true`. -/
def increaseProductQty (s : CartState) (units id quantity : Int) : CartState :=
  match s.productsData.findIdx? (fun product => product.id == id) with
  | none =>
      { s with productsData :=
          s.productsData ++ [{ id := id, quantity := 1, selected := true }] }
  | some index =>
      let old := s.productsData[index]?
      let qty := jsOrInt ((old.map (fun l => l.quantity)).getD 0) 0 + quantity
      let clampedQty := min qty units
      let newLine : CartLine :=
        { id := jsOrInt ((old.map (fun l => l.id)).getD 0) id
          quantity := clampedQty
          selected := ((old.map (fun l => l.selected)).getD false) || true }
      { s with productsData := s.productsData.set index newLine }

/-- Reducer `decreaseProductQty`: no-op when absent; otherwise subtract
`quantity` and, when the result is `≤ 0`, remove every line with this id,
else store the new quantity (selected kept via `?? true`). -/
def decreaseProductQty (s : CartState) (id quantity : Int) : CartState :=
  match s.productsData.findIdx? (fun product => product.id == id) with
  | none => s
  | some index =>
      let old := s.productsData[index]?
      let qty := jsOrInt ((old.map (fun l => l.quantity)).getD 0) 0 - quantity
      if qty ≤ 0 then
        { s with productsData := s.productsData.filter (fun item => item.id != id) }
      else
        let newLine : CartLine :=
          { id := jsOrInt ((old.map (fun l => l.id)).getD 0) id
            quantity := qty
            selected := (old.map (fun l => l.selected)).getD true }
        { s with productsData := s.productsData.set index newLine }

/-- Reducer `setProductQty`: remove the line when the requested quantity is
`≤ 0`; otherwise store `Math.min(quantity, units)`, updating the existing
line or pushing a new one with `selected := true`. -/
def setProductQty (s : CartState) (units id quantity : Int) : CartState :=
  let indexOpt := s.productsData.findIdx? (fun product => product.id == id)
  let qty := quantity
  if qty ≤ 0 then
    { s with productsData := s.productsData.filter (fun item => item.id != id) }
  else
    let clampedQty := min qty units
    match indexOpt with
    | some index =>
        let old := s.productsData[index]?
        let newLine : CartLine :=
          { id := jsOrInt ((old.map (fun l => l.id)).getD 0) id
            quantity := clampedQty
            selected := (old.map (fun l => l.selected)).getD true }
        { s with productsData := s.productsData.set index newLine }
    | none =>
        { s with productsData :=
            s.productsData ++ [{ id := id, quantity := clampedQty, selected := true }] }

/-- Reducer `removeProduct`: drop every line with the given id. -/
def removeProduct (s : CartState) (id : Int) : CartState :=
  { s with productsData := s.productsData.filter (fun item => item.id != id) }

/-- Reducer `deselectProduct`: toggle the selected flag of the lines with
the given id. -/
def deselectProduct (s : CartState) (id : Int) : CartState :=
  { s with productsData := s.productsData.map (fun product =>
      if product.id == id then { product with selected := !product.selected } else product) }

/-- Reducer `removeAllProducts`: reset `productsData` and `products` to the
initial (empty) lists. -/
def removeAllProducts (s : CartState) : CartState :=
  { s with productsData := [], products := [] }

/-- Reducer `addDeliveryToCart`: replace the delivery entity. -/
def addDeliveryToCart (s : CartState) (payload : ProductEntity) : CartState :=
  { s with delivery := some payload }

/-- Reducer `setDeliveryData`: overwrite date, time and address; overwrite
the interval only when the interval of the payload is not `undefined`. -/
def setDeliveryData (s : CartState) (date : Int) (time address : String)
    (interval : Option (List Int)) : CartState :=
  { s with deliveryData :=
      { date := date
        time := time
        address := address
        interval := match interval with
          | some iv => some iv
          | none => s.deliveryData.interval } }

/-- Reducer `setCartTransition`. -/
def setCartTransition (s : CartState) (productId : Int) : CartState :=
  { s with transitionId := productId }

/-- Reducer `setCartVersion`. -/
def setCartVersion (s : CartState) (v : Int) : CartState :=
  { s with version := v }

/-- Embedding of the stock test used in `selectCartTotal` and in the
PaymentPage order assembly on the result of a `find`:
statusIdentifier equal to "in_stock" and a units_product attribute value
(defaulted to 0 by nullish coalescing) of at least 1. -/
def jsInStock (p : Option ProductEntity) : Bool :=
  match p with
  | some q => q.statusIdentifier == "in_stock" && decide (1 ≤ q.attributeValues.unitsProduct.getD 0)
  | none => false

/-- Embedding of the price expression of `selectCartTotal`:
`p ? (p.attributeValues?.sale?.value || p.attributeValues?.price?.value || p.price || 0) : 0`. -/
def jsUnitPrice (p : Option ProductEntity) : Int :=
  match p with
  | some q => jsOrD q.attributeValues.sale (jsOrD q.attributeValues.price (jsOrD q.price 0))
  | none => 0

/-- Selector `selectCartTotal`: fold over `productsData`, adding
`price * quantity` for each selected line whose product (found by id in
`products`) is in stock. -/
def selectCartTotal (s : CartState) : Int :=
  s.productsData.foldl
    (fun total product =>
      if product.selected then
        let p := s.products.find? (fun q => q.id == product.id)
        if jsInStock p then total + jsUnitPrice p * product.quantity else total
      else total)
    0

/-- Delivery price expression of the TotalAmount component:
`delivery?.attributeValues?.price?.value || delivery?.price || 0`. -/
def deliveryPrice (delivery : Option ProductEntity) : Int :=
  match delivery with
  | some d => jsOrD d.attributeValues.price (jsOrD d.price 0)
  | none => 0

/-- The `cartTotal` computed by the TotalAmount component: 0 when no line
is selected, otherwise `selectCartTotal` plus the delivery price. -/
def cartTotalAmount (s : CartState) : Int :=
  let hasProducts := s.productsData.any (fun item => item.selected)
  if hasProducts then selectCartTotal s + deliveryPrice s.delivery else 0

/-- A line item of the order draft built by the PaymentPage
(`{productId, quantity, selected}`). -/
structure OrderLine where
  productId : Int
  quantity : Int
  selected : Bool
deriving DecidableEq, Repr

/-- The `productsInOrder` computation of the PaymentPage: empty when there
is no selected line and no delivery object; otherwise the selected,
in-stock cart lines mapped to order lines, with the delivery pushed as an
extra line (quantity 1, selected) whenever `deliveryData?.id` is truthy. -/
def productsInOrder (productsCartData : List CartLine) (combinedProducts : List ProductEntity)
    (delivery : Option ProductEntity) : List OrderLine :=
  let hasCartItems := productsCartData.any (fun item => item.selected)
  if !hasCartItems && delivery.isNone then []
  else
    let orderProducts :=
      (productsCartData.filter (fun item =>
        item.selected && jsInStock (combinedProducts.find? (fun p => p.id == item.id)))).map
        (fun item => { productId := item.id, quantity := item.quantity, selected := item.selected })
    match delivery with
    | some d => if d.id != 0 then orderProducts ++ [{ productId := d.id, quantity := 1, selected := true }]
                else orderProducts
    | none => orderProducts

/-- Embedding of `filterIntervalsByDate` from CalendarForm.  Instants are
epoch milliseconds; `ofs` is the local-timezone offset of the runtime in
minutes east of UTC.  In dayjs, startOf day truncates to the LOCAL
calendar day before utc() switches display mode (the instant is
unchanged), so the day bounds are those of the local day; endOf day is
the last millisecond of that day. -/
def filterIntervalsByDate (ofs : Int) (intervals : List (Int × Int)) (targetDate : Int) :
    List (Int × Int) :=
  let startOfDay := 86400000 * Int.fdiv (targetDate + ofs * 60000) 86400000 - ofs * 60000
  let endOfDay := startOfDay + 86400000 - 1
  intervals.filter (fun iv => decide (iv.1 < endOfDay) && decide (iv.2 > startOfDay))

/-- Claim-side definition, following the words of the specification: keep the
intervals overlapping the UTC calendar day of the target date
(`intervalStart < endOfTargetDayUTC AND intervalEnd > startOfTargetDayUTC`),
independent of the local timezone. -/
def filterIntervalsForDateUTC (intervals : List (Int × Int)) (targetDate : Int) :
    List (Int × Int) :=
  let startOfDayUTC := 86400000 * Int.fdiv targetDate 86400000
  let endOfDayUTC := startOfDayUTC + 86400000
  intervals.filter (fun iv => decide (iv.1 < endOfDayUTC) && decide (iv.2 > startOfDayUTC))

/-!
Helper lemmas about the JavaScript coalescing helpers and about
`findIdx?` / `set` / `find?`, shared by the claim proofs.
-/

/-- jsOrInt with default 0 is the identity. -/
theorem jsOrInt_zero (a : Int) : jsOrInt a 0 = a := by
  unfold jsOrInt
  by_cases h : a = 0 <;> simp [h]

/-- jsOrInt of a value with itself as default is that value. -/
theorem jsOrInt_same (a : Int) : jsOrInt a a = a := by
  unfold jsOrInt
  by_cases h : a = 0 <;> simp [h]

/-- Setting the element found by findIdx? to a value that still satisfies
the predicate makes find? return exactly that value. -/
theorem find?_set_of_findIdx? {α : Type} (p : α → Bool) :
    ∀ (xs : List α) (i : Nat) (y : α), xs.findIdx? p = some i → p y = true →
      (xs.set i y).find? p = some y := by
  intro xs
  induction xs with
  | nil => intro i y h _; simp at h
  | cons x xs ih =>
    intro i y h hy
    rw [List.findIdx?_cons] at h
    by_cases hx : p x
    · simp only [hx, if_true, Option.some.injEq] at h
      subst h
      simp [hy]
    · simp only [hx, if_false, List.findIdx?_succ] at h
      obtain ⟨j, hj, hij⟩ := Option.map_eq_some'.mp h
      subst hij
      simpa [List.find?_cons_of_neg _ hx] using ih j y hj hy

/-- Appending a single matching element to a list in which nothing matches
makes find? return that element. -/
theorem find?_append_single_of_none {α : Type} (p : α → Bool) (xs : List α) (y : α)
    (h : xs.findIdx? p = none) (hy : p y = true) :
    (xs ++ [y]).find? p = some y := by
  have hall : ∀ x ∈ xs, p x = false := List.findIdx?_eq_none_iff.mp h
  have hnone : xs.find? p = none := List.find?_eq_none.mpr (by
    intro x hx
    simp [hall x hx])
  simp [List.find?_append, hnone, hy]

/-- A successful findIdx? yields an index below the length whose element
satisfies the predicate. -/
theorem findIdx?_some_elem {α : Type} {p : α → Bool} {xs : List α} {i : Nat}
    (h : xs.findIdx? p = some i) :
    ∃ hi : i < xs.length, p xs[i] = true := by
  obtain ⟨hi, hp, -⟩ := List.findIdx?_eq_some_iff_getElem.mp h
  exact ⟨hi, hp⟩

/-!
Claim C8: behaviour of the addProductToCart reducer.
-/

/-- C8: addProductToCart inserts a new line with quantity max 1 delta and
the given selected flag when the product id is absent; when present it
replaces the first matching line by one with the same id and selected
flag and quantity old + delta floored at 1, leaving every other line in
place (the line is never removed). -/
theorem c8_addProductToCart_spec (s : CartState) (id : Int) (sel : Bool) (q : Int) :
    (s.productsData.findIdx? (fun l => l.id == id) = none →
      (addProductToCart s id sel q).productsData
        = s.productsData ++ [{ id := id, quantity := max 1 q, selected := sel }]) ∧
    (∀ i, s.productsData.findIdx? (fun l => l.id == id) = some i →
      ∃ hi : i < s.productsData.length,
        (addProductToCart s id sel q).productsData
          = s.productsData.set i
              { id := id
                quantity := max 1 (s.productsData[i].quantity + q)
                selected := s.productsData[i].selected }) := by
  constructor
  · intro h
    unfold addProductToCart
    rw [h]
  · intro i h
    obtain ⟨hi, hp⟩ := findIdx?_some_elem h
    have hid : s.productsData[i].id = id := by simpa using hp
    refine ⟨hi, ?_⟩
    unfold addProductToCart
    rw [h]
    simp only [List.getElem?_eq_getElem hi, Option.map_some', Option.getD_some]
    rw [hid, jsOrInt_same, jsOrInt_zero]

/-- Witness for C8 at concrete inputs: an absent id is appended, a present
id has its quantity incremented in place. -/
theorem c8_addProductToCart_spec_witness :
    (([] : List CartLine).findIdx? (fun l => l.id == 5) = none ∧
      (addProductToCart (initialCartState 0) 5 true 3).productsData
        = [] ++ [{ id := 5, quantity := 3, selected := true }]) ∧
    ([CartLine.mk 5 2 false].findIdx? (fun l => l.id == 5) = some 0 ∧
      (addProductToCart { initialCartState 0 with
          productsData := [CartLine.mk 5 2 false] } 5 true 3).productsData
        = [CartLine.mk 5 2 false].set 0 { id := 5, quantity := 5, selected := false }) := by
  constructor
  · exact ⟨by decide, (c8_addProductToCart_spec (initialCartState 0) 5 true 3).1 (by decide)⟩
  · constructor
    · decide
    · have h := (c8_addProductToCart_spec
        { initialCartState 0 with productsData := [CartLine.mk 5 2 false] } 5 true 3).2 0 (by decide)
      obtain ⟨hi, heq⟩ := h
      simpa using heq

/-!
Claim C9: effect of the quantity reducers on the stored selected flag.
-/

/-- C9: on the line it updates, increaseProductQty always stores
selected = true (the source writes selected || true), even when the line
was deselected; decreaseProductQty (when the line survives) and
setProductQty (with positive requested quantity) store the previous
selected flag unchanged. -/
theorem c9_selected_flag_spec (s : CartState) :
    (∀ units id q i, s.productsData.findIdx? (fun l => l.id == id) = some i →
      ∃ hi : i < s.productsData.length,
        (increaseProductQty s units id q).productsData[i]? =
          some { id := id
                 quantity := min (s.productsData[i].quantity + q) units
                 selected := true }) ∧
    (∀ id q i, s.productsData.findIdx? (fun l => l.id == id) = some i →
      ∃ hi : i < s.productsData.length,
        0 < s.productsData[i].quantity - q →
          (decreaseProductQty s id q).productsData[i]? =
            some { id := id
                   quantity := s.productsData[i].quantity - q
                   selected := s.productsData[i].selected }) ∧
    (∀ units id q i, s.productsData.findIdx? (fun l => l.id == id) = some i → 1 ≤ q →
      ∃ hi : i < s.productsData.length,
        (setProductQty s units id q).productsData[i]? =
          some { id := id
                 quantity := min q units
                 selected := s.productsData[i].selected }) := by
  refine ⟨?_, ?_, ?_⟩
  · intro units id q i h
    obtain ⟨hi, hp⟩ := findIdx?_some_elem h
    have hid : s.productsData[i].id = id := by simpa using hp
    refine ⟨hi, ?_⟩
    unfold increaseProductQty
    rw [h]
    simp only [List.getElem?_eq_getElem hi, Option.map_some', Option.getD_some, jsOrInt_zero,
      Bool.or_true]
    rw [hid, jsOrInt_same]
    simp [List.getElem?_set_self, hi]
  · intro id q i h
    obtain ⟨hi, hp⟩ := findIdx?_some_elem h
    have hid : s.productsData[i].id = id := by simpa using hp
    refine ⟨hi, ?_⟩
    intro hpos
    unfold decreaseProductQty
    rw [h]
    simp only [List.getElem?_eq_getElem hi, Option.map_some', Option.getD_some, jsOrInt_zero]
    have hneg : ¬ (s.productsData[i].quantity - q ≤ 0) := by omega
    rw [if_neg hneg, hid, jsOrInt_same]
    simp [List.getElem?_set_self, hi]
  · intro units id q i h hq
    obtain ⟨hi, hp⟩ := findIdx?_some_elem h
    have hid : s.productsData[i].id = id := by simpa using hp
    refine ⟨hi, ?_⟩
    unfold setProductQty
    rw [h]
    have hneg : ¬ (q ≤ 0) := by omega
    simp only [hneg, if_false, List.getElem?_eq_getElem hi, Option.map_some', Option.getD_some]
    rw [hid, jsOrInt_same]
    simp [List.getElem?_set_self, hi]

/-- Concrete cart state with a single deselected line, for the C9 witness. -/
def exDeselectedCart : CartState :=
  { initialCartState 0 with productsData := [{ id := 1, quantity := 3, selected := false }] }

/-- Witness for C9 at a concrete deselected line: increase forces
selected = true, decrease and setQty keep selected = false. -/
theorem c9_selected_flag_spec_witness :
    (exDeselectedCart.productsData.findIdx? (fun l => l.id == 1) = some 0 ∧
      (increaseProductQty exDeselectedCart 9 1 2).productsData[0]? =
        some { id := 1, quantity := 5, selected := true }) ∧
    (0 < (3 : Int) - 1 ∧
      (decreaseProductQty exDeselectedCart 1 1).productsData[0]? =
        some { id := 1, quantity := 2, selected := false }) ∧
    ((1 : Int) ≤ 2 ∧
      (setProductQty exDeselectedCart 9 1 2).productsData[0]? =
        some { id := 1, quantity := 2, selected := false }) := by
  refine ⟨⟨by decide, ?_⟩, ⟨by decide, ?_⟩, ⟨by decide, ?_⟩⟩
  · obtain ⟨hi, hres⟩ := (c9_selected_flag_spec exDeselectedCart).1 9 1 2 0 (by decide)
    simpa using hres
  · obtain ⟨hi, hres⟩ := (c9_selected_flag_spec exDeselectedCart).2.1 1 1 0 (by decide)
    simpa using hres (by norm_num [exDeselectedCart, initialCartState])
  · obtain ⟨hi, hres⟩ := (c9_selected_flag_spec exDeselectedCart).2.2 9 1 2 0 (by decide) (by decide)
    simpa using hres

/-!
Claim C5: behaviour of the setProductQty reducer.
-/

/-- C5 (amended): setProductQty removes the line when the requested
quantity is nonpositive; otherwise the stored quantity is exactly
min quantity units (which is the clamp of the request to the interval
from 1 to units whenever units is at least 1, and equals units whenever
the request exceeds units), for a present line as well as for a newly
inserted one. -/
theorem c5_setProductQty_spec (s : CartState) (units id q : Int) :
    (q ≤ 0 → (setProductQty s units id q).productsData.find? (fun l => l.id == id) = none) ∧
    (1 ≤ q → ∃ l, (setProductQty s units id q).productsData.find? (fun l => l.id == id) = some l ∧
       l.quantity = min q units ∧
       (1 ≤ units → 1 ≤ l.quantity ∧ l.quantity ≤ units) ∧
       (units < q → l.quantity = units)) := by
  constructor
  · intro hq
    unfold setProductQty
    rw [if_pos hq]
    refine List.find?_eq_none.mpr ?_
    intro x hx
    have hne := (List.mem_filter.mp hx).2
    simp only [bne_iff_ne, ne_eq] at hne
    simp [hne]
  · intro hq
    have hneg : ¬ (q ≤ 0) := by omega
    unfold setProductQty
    rw [if_neg hneg]
    cases hidx : s.productsData.findIdx? (fun l => l.id == id) with
    | some i =>
        obtain ⟨hi, hp⟩ := findIdx?_some_elem hidx
        have hid : s.productsData[i].id = id := by simpa using hp
        refine ⟨{ id := id, quantity := min q units,
                  selected := s.productsData[i].selected }, ?_, rfl, ?_, ?_⟩
        · have := find?_set_of_findIdx? (fun l => l.id == id) s.productsData i
            { id := id, quantity := min q units, selected := s.productsData[i].selected }
            hidx (by simp)
          rw [← this]
          simp only [List.getElem?_eq_getElem hi, Option.map_some', Option.getD_some]
          rw [hid, jsOrInt_same]
        · intro hu
          exact ⟨le_min hq hu, min_le_right q units⟩
        · intro hlt
          exact min_eq_right (le_of_lt hlt)
    | none =>
        refine ⟨{ id := id, quantity := min q units, selected := true }, ?_, rfl, ?_, ?_⟩
        · exact find?_append_single_of_none _ _ _ hidx (by simp)
        · intro hu
          exact ⟨le_min hq hu, min_le_right q units⟩
        · intro hlt
          exact min_eq_right (le_of_lt hlt)

/-- Concrete cart state with a single selected line of quantity 3. -/
def exCartOneLine : CartState :=
  { initialCartState 0 with productsData := [{ id := 1, quantity := 3, selected := true }] }

/-- Witness for C5 at concrete inputs: a nonpositive request removes the
line, a positive request stores min of request and units. -/
theorem c5_setProductQty_spec_witness :
    ((-2 : Int) ≤ 0 ∧
      (setProductQty exCartOneLine 10 1 (-2)).productsData.find? (fun l => l.id == 1) = none) ∧
    ((1 : Int) ≤ 5 ∧
      ∃ l, (setProductQty exCartOneLine 10 1 5).productsData.find? (fun l => l.id == 1) = some l ∧
        l.quantity = min 5 10 ∧
        (1 ≤ (10 : Int) → 1 ≤ l.quantity ∧ l.quantity ≤ 10) ∧
        ((10 : Int) < 5 → l.quantity = 10)) := by
  exact ⟨⟨by decide, (c5_setProductQty_spec exCartOneLine 10 1 (-2)).1 (by decide)⟩,
    ⟨by decide, (c5_setProductQty_spec exCartOneLine 10 1 5).2 (by decide)⟩⟩

/-- Counterexample for C5 as stated: with units = 0 and requested quantity
5 (which is positive and exceeds units), the stored quantity is 0, which
does not lie in the claimed clamping interval from 1 to units (it is not
at least 1), so the stored quantity is not a clamp to that interval. -/
theorem c5_counterexample :
    (setProductQty exCartOneLine 0 1 5).productsData
      = [{ id := 1, quantity := 0, selected := true }] ∧
    ¬ (∀ l ∈ (setProductQty exCartOneLine 0 1 5).productsData, 1 ≤ l.quantity) := by
  constructor
  · decide
  · decide

/-!
Claims C3 and C1: the product subtotal and the displayed cart total.
-/

/-- Stock test of a cart line against the snapshot list (by-id lookup). -/
def cartLineInStock (products : List ProductEntity) (l : CartLine) : Bool :=
  jsInStock (products.find? (fun p => p.id == l.id))

/-- JS unit price of a cart line (by-id lookup). -/
def cartLineUnitPrice (products : List ProductEntity) (l : CartLine) : Int :=
  jsUnitPrice (products.find? (fun p => p.id == l.id))

/-- Specification-side product subtotal, amended claim: the sum over the
selected lines whose snapshot is in stock of unit price times quantity,
where the unit price uses the JavaScript falsy-coalescing of the source
(a zero sale value falls through to the regular price). -/
def specCartTotal (s : CartState) : Int :=
  ((s.productsData.filter (fun l => l.selected && cartLineInStock s.products l)).map
    (fun l => cartLineUnitPrice s.products l * l.quantity)).sum

/-- Claim-literal unit price, following the words of the claim: saleValue if
present, else price, else 0, reading presence as Option presence rather
than JavaScript truthiness. -/
def claimUnitPrice (p : Option ProductEntity) : Int :=
  match p with
  | some q =>
      match q.attributeValues.sale with
      | some v => v
      | none =>
          match q.attributeValues.price with
          | some v => v
          | none =>
              match q.price with
              | some v => v
              | none => 0
  | none => 0

/-- Claim-literal product subtotal (differs from the code on products
whose sale value is present but zero). -/
def claimCartTotal (s : CartState) : Int :=
  ((s.productsData.filter (fun l => l.selected && cartLineInStock s.products l)).map
    (fun l => claimUnitPrice (s.products.find? (fun p => p.id == l.id)) * l.quantity)).sum

/-- The fold of selectCartTotal accumulates exactly the filtered sum. -/
theorem foldl_selectCartTotal (P : List ProductEntity) :
    ∀ (xs : List CartLine) (acc : Int),
      xs.foldl (fun total product =>
        if product.selected then
          let p := P.find? (fun q => q.id == product.id)
          if jsInStock p then total + jsUnitPrice p * product.quantity else total
        else total) acc
      = acc + ((xs.filter (fun l => l.selected && cartLineInStock P l)).map
          (fun l => cartLineUnitPrice P l * l.quantity)).sum := by
  intro xs
  induction xs with
  | nil => intro acc; simp
  | cons x xs ih =>
    intro acc
    rw [List.foldl_cons]
    by_cases hsel : x.selected
    · by_cases hst : cartLineInStock P x
      · have hst2 : jsInStock (P.find? (fun q => q.id == x.id)) = true := hst
        rw [ih]
        simp only [hsel, hst, hst2, if_true, List.filter_cons, Bool.and_self, List.map_cons,
          List.sum_cons, cartLineInStock, cartLineUnitPrice]
        ring
      · have hst2 : jsInStock (P.find? (fun q => q.id == x.id)) = false := by
          simpa [cartLineInStock] using hst
        rw [ih]
        simp [hsel, hst, hst2, List.filter_cons, cartLineInStock]
    · have hsel2 : x.selected = false := by simpa using hsel
      rw [ih]
      simp [hsel2, List.filter_cons]

/-- C3 (amended): selectCartTotal equals the sum over the selected,
in-stock cart lines of unit price times quantity, with the unit price
given by JavaScript falsy-coalescing of sale value, attribute price and
base price (a present-but-zero sale value falls through to the price);
selected lines with no matching snapshot, or whose snapshot fails the
stock conditions, contribute nothing. -/
theorem c3_selectCartTotal_spec (s : CartState) : selectCartTotal s = specCartTotal s := by
  unfold selectCartTotal specCartTotal
  rw [foldl_selectCartTotal]
  simp

/-- Concrete state with a selected, in-stock line whose sale value is
present but zero, with attribute price 10. -/
def exZeroSaleCart : CartState :=
  { initialCartState 0 with
    products := [{ id := 1, statusIdentifier := "in_stock",
                   attributeValues := ⟨some 0, some 10, some 5⟩, price := none }]
    productsData := [{ id := 1, quantity := 1, selected := true }] }

/-- Counterexample for C3 as stated: with a present sale value of 0 and an
attribute price of 10, the code charges 10 (JavaScript falsiness skips the
zero sale value) while the unit price rule of the claim (saleValue if present)
yields 0, so the claimed equation fails. -/
theorem c3_counterexample :
    selectCartTotal exZeroSaleCart = 10 ∧ claimCartTotal exZeroSaleCart = 0 ∧
    selectCartTotal exZeroSaleCart ≠ claimCartTotal exZeroSaleCart := by
  refine ⟨by decide, by decide, by decide⟩

/-- C1 (amended): the displayed cart total is 0 whenever no line is
selected, regardless of the delivery price; and the delivery price is
added to the product subtotal exactly when at least one line is selected,
whether or not any selected line is in stock. -/
theorem c1_cartTotal_spec (s : CartState) :
    ((∀ l ∈ s.productsData, l.selected = false) → cartTotalAmount s = 0) ∧
    ((∃ l ∈ s.productsData, l.selected = true) →
      cartTotalAmount s = selectCartTotal s + deliveryPrice s.delivery) := by
  constructor
  · intro h
    unfold cartTotalAmount
    have hany : s.productsData.any (fun item => item.selected) = false := by
      rw [List.any_eq_false]
      intro l hl
      simp [h l hl]
    simp [hany]
  · intro h
    unfold cartTotalAmount
    have hany : s.productsData.any (fun item => item.selected) = true := by
      rw [List.any_eq_true]
      obtain ⟨l, hl, hsel⟩ := h
      exact ⟨l, hl, hsel⟩
    simp [hany]

/-- Concrete state whose only selected line is out of stock, with a
delivery product priced 7. -/
def exOutOfStockCart : CartState :=
  { initialCartState 0 with
    products := [{ id := 1, statusIdentifier := "out_of_stock",
                   attributeValues := ⟨none, some 10, some 5⟩, price := none }]
    productsData := [{ id := 1, quantity := 1, selected := true }]
    delivery := some { id := 77, statusIdentifier := "in_stock",
                       attributeValues := ⟨none, some 7, some 1⟩, price := none } }

/-- Witness for C1 at a concrete state with a selected line: the displayed
total is the product subtotal plus the delivery price. -/
theorem c1_cartTotal_spec_witness :
    (∃ l ∈ exOutOfStockCart.productsData, l.selected = true) ∧
    cartTotalAmount exOutOfStockCart
      = selectCartTotal exOutOfStockCart + deliveryPrice exOutOfStockCart.delivery := by
  exact ⟨by decide, (c1_cartTotal_spec exOutOfStockCart).2 (by decide)⟩

/-- Counterexample for C1 as stated: in a cart whose selected lines are
all out of stock and whose delivery price is the nonzero 7, the displayed
total is 7, not 0 — the component gates the delivery price on a line
being selected, not on it being selected and in stock. -/
theorem c1_counterexample :
    (∀ l ∈ exOutOfStockCart.productsData, l.selected = true →
      jsInStock (exOutOfStockCart.products.find? (fun p => p.id == l.id)) = false) ∧
    deliveryPrice exOutOfStockCart.delivery = 7 ∧
    cartTotalAmount exOutOfStockCart = 7 ∧ cartTotalAmount exOutOfStockCart ≠ 0 := by
  refine ⟨by decide, by decide, by decide, by decide⟩

/-!
Claim C4: the quantity invariant over sequences of ledger operations.
-/

/-- A ledger operation of the cart slice, with its payload. -/
inductive CartAction where
  | add (id : Int) (selected : Bool) (quantity : Int)
  | increase (units id quantity : Int)
  | decrease (id quantity : Int)
  | setQty (units id quantity : Int)
  | deselect (id : Int)
  | remove (id : Int)
  | removeAll
deriving DecidableEq, Repr

/-- Dispatch a ledger operation to its reducer. -/
def applyAction (s : CartState) : CartAction → CartState
  | .add id sel q => addProductToCart s id sel q
  | .increase units id q => increaseProductQty s units id q
  | .decrease id q => decreaseProductQty s id q
  | .setQty units id q => setProductQty s units id q
  | .deselect id => deselectProduct s id
  | .remove id => removeProduct s id
  | .removeAll => removeAllProducts s

/-- Arguments under which an operation respects the quantity invariant:
increase needs a positive units bound and a nonnegative delta, setQty
needs a positive units bound; all other operations are unrestricted. -/
def goodAction : CartAction → Bool
  | .increase units _ q => decide (1 ≤ units) && decide (0 ≤ q)
  | .setQty units _ _ => decide (1 ≤ units)
  | _ => true

/-- Every cart line present in the state has quantity at least 1. -/
def qtyInvariant (s : CartState) : Prop :=
  ∀ l ∈ s.productsData, 1 ≤ l.quantity

/-- addProductToCart preserves the quantity invariant. -/
theorem qtyInvariant_addProductToCart (s : CartState) (id : Int) (sel : Bool) (q : Int)
    (h : qtyInvariant s) : qtyInvariant (addProductToCart s id sel q) := by
  unfold addProductToCart
  cases hidx : s.productsData.findIdx? (fun l => l.id == id) with
  | none =>
    intro l hl
    rcases List.mem_append.mp hl with hmem | hmem
    · exact h l hmem
    · simp only [List.mem_singleton] at hmem
      subst hmem
      exact le_max_left 1 q
  | some i =>
    intro l hl
    rcases List.mem_or_eq_of_mem_set hl with hmem | heq
    · exact h l hmem
    · subst heq
      exact le_max_left _ _

/-- increaseProductQty preserves the quantity invariant when the units
bound is positive and the delta is nonnegative. -/
theorem qtyInvariant_increaseProductQty (s : CartState) (units id q : Int)
    (hu : 1 ≤ units) (hq : 0 ≤ q) (h : qtyInvariant s) :
    qtyInvariant (increaseProductQty s units id q) := by
  unfold increaseProductQty
  cases hidx : s.productsData.findIdx? (fun l => l.id == id) with
  | none =>
    intro l hl
    rcases List.mem_append.mp hl with hmem | hmem
    · exact h l hmem
    · simp only [List.mem_singleton] at hmem
      subst hmem
      exact le_refl 1
  | some i =>
    obtain ⟨hi, -⟩ := findIdx?_some_elem hidx
    intro l hl
    rcases List.mem_or_eq_of_mem_set hl with hmem | heq
    · exact h l hmem
    · subst heq
      simp only [List.getElem?_eq_getElem hi, Option.map_some', Option.getD_some, jsOrInt_zero]
      have h1 : 1 ≤ s.productsData[i].quantity := h _ (List.getElem_mem hi)
      exact le_min (by omega) hu

/-- decreaseProductQty preserves the quantity invariant. -/
theorem qtyInvariant_decreaseProductQty (s : CartState) (id q : Int)
    (h : qtyInvariant s) : qtyInvariant (decreaseProductQty s id q) := by
  unfold decreaseProductQty
  cases hidx : s.productsData.findIdx? (fun l => l.id == id) with
  | none => exact h
  | some i =>
    obtain ⟨hi, -⟩ := findIdx?_some_elem hidx
    simp only [List.getElem?_eq_getElem hi, Option.map_some', Option.getD_some, jsOrInt_zero]
    by_cases hq : s.productsData[i].quantity - q ≤ 0
    · rw [if_pos hq]
      intro l hl
      exact h l (List.mem_of_mem_filter hl)
    · rw [if_neg hq]
      intro l hl
      rcases List.mem_or_eq_of_mem_set hl with hmem | heq
      · exact h l hmem
      · subst heq
        simp only
        omega

/-- setProductQty preserves the quantity invariant when the units bound is
positive. -/
theorem qtyInvariant_setProductQty (s : CartState) (units id q : Int)
    (hu : 1 ≤ units) (h : qtyInvariant s) : qtyInvariant (setProductQty s units id q) := by
  unfold setProductQty
  by_cases hq : q ≤ 0
  · rw [if_pos hq]
    intro l hl
    exact h l (List.mem_of_mem_filter hl)
  · rw [if_neg hq]
    cases hidx : s.productsData.findIdx? (fun l => l.id == id) with
    | none =>
      intro l hl
      rcases List.mem_append.mp hl with hmem | hmem
      · exact h l hmem
      · simp only [List.mem_singleton] at hmem
        subst hmem
        exact le_min (by omega) hu
    | some i =>
      intro l hl
      rcases List.mem_or_eq_of_mem_set hl with hmem | heq
      · exact h l hmem
      · subst heq
        exact le_min (by omega) hu

/-- deselectProduct preserves the quantity invariant. -/
theorem qtyInvariant_deselectProduct (s : CartState) (id : Int)
    (h : qtyInvariant s) : qtyInvariant (deselectProduct s id) := by
  unfold deselectProduct
  intro l hl
  obtain ⟨a, ha, heq⟩ := List.mem_map.mp hl
  subst heq
  by_cases hid : a.id == id <;> simp [hid] <;> exact h a ha

/-- removeProduct preserves the quantity invariant. -/
theorem qtyInvariant_removeProduct (s : CartState) (id : Int)
    (h : qtyInvariant s) : qtyInvariant (removeProduct s id) := by
  unfold removeProduct
  intro l hl
  exact h l (List.mem_of_mem_filter hl)

/-- removeAllProducts preserves the quantity invariant. -/
theorem qtyInvariant_removeAllProducts (s : CartState)
    (_h : qtyInvariant s) : qtyInvariant (removeAllProducts s) := by
  unfold removeAllProducts
  intro l hl
  simp at hl

/-- Folding a list of good ledger operations preserves the quantity
invariant. -/
theorem qtyInvariant_foldl :
    ∀ (acts : List CartAction) (s : CartState), qtyInvariant s →
      (∀ a ∈ acts, goodAction a = true) → qtyInvariant (acts.foldl applyAction s) := by
  intro acts
  induction acts with
  | nil => intro s hs _; exact hs
  | cons a acts ih =>
    intro s hs hg
    rw [List.foldl_cons]
    refine ih (applyAction s a) ?_ ?_
    · have hga : goodAction a = true := hg a (List.mem_cons_self a acts)
      cases a with
      | add id sel q => exact qtyInvariant_addProductToCart s id sel q hs
      | increase units id q =>
        simp only [goodAction, Bool.and_eq_true, decide_eq_true_eq] at hga
        exact qtyInvariant_increaseProductQty s units id q hga.1 hga.2 hs
      | decrease id q => exact qtyInvariant_decreaseProductQty s id q hs
      | setQty units id q =>
        simp only [goodAction, decide_eq_true_eq] at hga
        exact qtyInvariant_setProductQty s units id q hga hs
      | deselect id => exact qtyInvariant_deselectProduct s id hs
      | remove id => exact qtyInvariant_removeProduct s id hs
      | removeAll => exact qtyInvariant_removeAllProducts s hs
    · intro b hb
      exact hg b (List.mem_cons_of_mem a hb)

/-- C4 (amended): starting from the empty cart, after any sequence of
ledger operations in which every increaseProductQty call carries a units
bound of at least 1 and a nonnegative delta and every setProductQty call
carries a units bound of at least 1, every cart line present in the
resulting state has quantity at least 1 (so no zero-quantity line ever
persists); without those bounds the clamp min qty units can store a
nonpositive quantity. -/
theorem c4_quantity_invariant (now : Int) (acts : List CartAction)
    (h : ∀ a ∈ acts, goodAction a = true) :
    qtyInvariant (acts.foldl applyAction (initialCartState now)) := by
  refine qtyInvariant_foldl acts (initialCartState now) ?_ h
  intro l hl
  simp [initialCartState] at hl

/-- Witness for C4: a concrete good sequence of operations ends in a state
where every line has quantity at least 1. -/
theorem c4_quantity_invariant_witness :
    (∀ a ∈ [CartAction.add 1 true 2, CartAction.increase 5 1 2, CartAction.decrease 1 1,
        CartAction.setQty 7 1 4, CartAction.deselect 1, CartAction.remove 2],
      goodAction a = true) ∧
    qtyInvariant ([CartAction.add 1 true 2, CartAction.increase 5 1 2, CartAction.decrease 1 1,
        CartAction.setQty 7 1 4, CartAction.deselect 1, CartAction.remove 2].foldl
      applyAction (initialCartState 0)) := by
  exact ⟨by decide, c4_quantity_invariant 0 _ (by decide)⟩

/-- Counterexample for C4 as stated (arbitrary arguments): adding a product
and then calling increaseProductQty with units = 0 leaves a line with
quantity 0 in the cart, violating the claimed invariant. -/
theorem c4_counterexample :
    ([CartAction.add 1 true 1, CartAction.increase 0 1 1].foldl applyAction
        (initialCartState 0)).productsData = [{ id := 1, quantity := 0, selected := true }] ∧
    ¬ qtyInvariant ([CartAction.add 1 true 1, CartAction.increase 0 1 1].foldl applyAction
        (initialCartState 0)) := by
  constructor
  · decide
  · intro h
    have := h { id := 1, quantity := 0, selected := true } (by decide)
    simp at this

/-!
Claim C6: the PaymentPage order assembly.
-/

/-- Specification-side order draft: the selected, in-stock cart lines as
order lines with selected true, followed by one delivery line of
quantity 1 exactly when a delivery product with a truthy id exists. -/
def specOrderDraft (cart : List CartLine) (snaps : List ProductEntity)
    (delivery : Option ProductEntity) : List OrderLine :=
  ((cart.filter (fun l => l.selected && jsInStock (snaps.find? (fun p => p.id == l.id)))).map
    (fun l => { productId := l.id, quantity := l.quantity, selected := true })) ++
  (match delivery with
   | some d => if d.id != 0 then [{ productId := d.id, quantity := 1, selected := true }] else []
   | none => [])

/-- C6: productsInOrder produces exactly the selected cart lines whose
matching product is in stock with at least one available unit (as
productId/quantity/selected-true line items), followed by one extra
delivery line item of quantity 1 whenever a delivery product exists,
regardless of the own stock status of the delivery product; in particular an
empty ledger with a set delivery yields exactly the one delivery line. -/
theorem c6_productsInOrder_spec :
    (∀ cart snaps delivery,
      productsInOrder cart snaps delivery = specOrderDraft cart snaps delivery) ∧
    (∀ snaps (d : ProductEntity), d.id ≠ 0 →
      productsInOrder [] snaps (some d)
        = [{ productId := d.id, quantity := 1, selected := true }]) := by
  constructor
  · intro cart snaps delivery
    unfold productsInOrder specOrderDraft
    by_cases hguard : (!(cart.any fun item => item.selected) && delivery.isNone) = true
    · rw [if_pos hguard]
      obtain ⟨hany, hnone⟩ := Bool.and_eq_true_iff.mp hguard
      have hany2 : cart.any (fun item => item.selected) = false := by simpa using hany
      have hdel : delivery = none := Option.isNone_iff_eq_none.mp hnone
      subst hdel
      have hfil : cart.filter
          (fun l => l.selected && jsInStock (snaps.find? (fun p => p.id == l.id))) = [] := by
        refine List.filter_eq_nil_iff.mpr ?_
        intro a ha
        have hsel : a.selected = false := by
          rw [List.any_eq_false] at hany2
          simpa using hany2 a ha
        simp [hsel]
      simp [hfil]
    · rw [if_neg hguard]
      have hmap : (cart.filter
            (fun l => l.selected && jsInStock (snaps.find? (fun p => p.id == l.id)))).map
            (fun item =>
              ({ productId := item.id, quantity := item.quantity,
                 selected := item.selected } : OrderLine))
          = (cart.filter
            (fun l => l.selected && jsInStock (snaps.find? (fun p => p.id == l.id)))).map
            (fun l =>
              ({ productId := l.id, quantity := l.quantity, selected := true } : OrderLine)) := by
        refine List.map_congr_left ?_
        intro a ha
        have hsel : a.selected = true := (Bool.and_eq_true_iff.mp (List.mem_filter.mp ha).2).1
        rw [hsel]
      cases delivery with
      | none => simp [hmap]
      | some d =>
        by_cases hid : (d.id != 0) = true
        · simp [hmap, hid]
        · simp [hmap, hid]
  · intro snaps d hd
    have hid : (d.id != 0) = true := by simpa [bne_iff_ne] using hd
    simp [productsInOrder, hid]

/-- Concrete delivery product that is itself out of stock. -/
def exDeliveryEntity : ProductEntity :=
  { id := 42, statusIdentifier := "out_of_stock",
    attributeValues := ⟨none, none, some 0⟩, price := some 3 }

/-- Witness for C6: with an empty ledger and an out-of-stock delivery
product of id 42, the draft is exactly the single delivery line. -/
theorem c6_productsInOrder_spec_witness :
    exDeliveryEntity.id ≠ 0 ∧
    productsInOrder [] [] (some exDeliveryEntity)
      = [{ productId := 42, quantity := 1, selected := true }] := by
  exact ⟨by decide, (c6_productsInOrder_spec).2 [] exDeliveryEntity (by decide)⟩

/-!
Claim C7: the setDeliveryData reducer.
-/

/-- C7: setDeliveryData replaces date, time and address unconditionally,
replaces the interval exactly when the payload carries one (an omitted
interval keeps the previously stored interval), and modifies no other
field of the cart state. -/
theorem c7_setDeliveryData_spec (s : CartState) (date : Int) (time address : String)
    (iv : Option (List Int)) :
    (setDeliveryData s date time address iv).deliveryData.date = date ∧
    (setDeliveryData s date time address iv).deliveryData.time = time ∧
    (setDeliveryData s date time address iv).deliveryData.address = address ∧
    (∀ ivl, iv = some ivl →
      (setDeliveryData s date time address iv).deliveryData.interval = some ivl) ∧
    (iv = none →
      (setDeliveryData s date time address iv).deliveryData.interval
        = s.deliveryData.interval) ∧
    (setDeliveryData s date time address iv).products = s.products ∧
    (setDeliveryData s date time address iv).productsData = s.productsData ∧
    (setDeliveryData s date time address iv).delivery = s.delivery ∧
    (setDeliveryData s date time address iv).transitionId = s.transitionId ∧
    (setDeliveryData s date time address iv).total = s.total ∧
    (setDeliveryData s date time address iv).version = s.version := by
  cases iv <;> simp [setDeliveryData]

/-- Witness for C7 at concrete payloads: a provided interval is stored, an
omitted interval leaves the stored interval unchanged. -/
theorem c7_setDeliveryData_spec_witness :
    ((some [1, 2] : Option (List Int)) = some [1, 2] ∧
      (setDeliveryData (initialCartState 0) 5 "ten" "addr" (some [1, 2])).deliveryData.interval
        = some [1, 2]) ∧
    ((none : Option (List Int)) = none ∧
      (setDeliveryData (initialCartState 0) 5 "ten" "addr" none).deliveryData.interval
        = (initialCartState 0).deliveryData.interval) := by
  constructor
  · exact ⟨rfl,
      (c7_setDeliveryData_spec (initialCartState 0) 5 "ten" "addr" (some [1, 2])).2.2.2.1
        [1, 2] rfl⟩
  · exact ⟨rfl,
      (c7_setDeliveryData_spec (initialCartState 0) 5 "ten" "addr" none).2.2.2.2.1 rfl⟩

/-!
Claim C10: the removeAllProducts reducer is frame-preserving.
-/

/-- C10: removeAllProducts empties the cart lines and the snapshot list
and changes nothing else — the delivery product, the delivery data, the
transition id, the total field and the version are all unchanged. -/
theorem c10_removeAllProducts_spec (s : CartState) :
    (removeAllProducts s).productsData = [] ∧
    (removeAllProducts s).products = [] ∧
    (removeAllProducts s).delivery = s.delivery ∧
    (removeAllProducts s).deliveryData = s.deliveryData ∧
    (removeAllProducts s).transitionId = s.transitionId ∧
    (removeAllProducts s).total = s.total ∧
    (removeAllProducts s).version = s.version := by
  simp [removeAllProducts]

/-!
Claim C2: the CalendarForm interval filter and the timezone.

The test interval runs from 2024-01-01T23:00:00Z (epoch ms 1704150000000)
to 2024-01-02T01:00:00Z (1704157200000); the target date is
2024-01-02T00:00:00+05:00, the instant 2024-01-01T19:00:00Z
(1704135600000), whose UTC calendar day is 2024-01-01.
-/

/-- C2 divergence: the embedded filterIntervalsByDate depends on the
local timezone of the runtime, because dayjs startOf day truncates to the
LOCAL calendar day before utc() changes only the display mode.  Under a
UTC+4 runtime (offset 240 minutes) the code excludes the test interval,
under a UTC runtime it includes it, and the specified UTC-day rule
(filterIntervalsForDateUTC) includes it; so the code does not implement
the timezone-independent UTC-day overlap rule that both the spec and the
comments in the code itself describe. -/
theorem c2_filterIntervals_divergence :
    filterIntervalsByDate 240 [(1704150000000, 1704157200000)] 1704135600000 = [] ∧
    filterIntervalsByDate 0 [(1704150000000, 1704157200000)] 1704135600000
      = [(1704150000000, 1704157200000)] ∧
    filterIntervalsForDateUTC [(1704150000000, 1704157200000)] 1704135600000
      = [(1704150000000, 1704157200000)] ∧
    filterIntervalsByDate 240 [(1704150000000, 1704157200000)] 1704135600000
      ≠ filterIntervalsForDateUTC [(1704150000000, 1704157200000)] 1704135600000 := by
  refine ⟨by decide, by decide, by decide, by decide⟩

end ShopDemo
